import Mathlib

/-!
Shallow embedding of the geocoding pipeline in `src/geocoding.py`
(with the near-identical variant `src/.ipynb_checkpoints/geocoding-checkpoint.py`
embedded separately where the two differ).

The remote V-World service is modelled as a function from the request
parameters to either a raised exception (network error, timeout) or an
HTTP response; the response body is either a raised exception (JSON or
field-access failure) or a parsed `response` object with its `status`,
optional `result.point` and optional `text` fields.  Each lookup function
returns, alongside the Python dictionary it would return, the list of
requests it issued, so that call counts are part of the observable result.
-/

namespace Geocoding

/-- A parsed point object from `response.result.point`: the `x` and `y`
coordinate strings, already converted to numbers by `float`. -/
structure VPoint where
  x : Rat
  y : Rat
deriving DecidableEq, Repr

/-- The parsed JSON body object `response`: its `status` field, the optional
point under `result` (accessing it when absent raises a KeyError), and the
optional `text` field, read with a defaulted get in the checkpoint variant. -/
structure VBody where
  status : String
  point : Option VPoint
  text : Option String
deriving DecidableEq, Repr

/-- An HTTP response: transport status code plus the outcome of parsing the
JSON body (`Except.error e` means `response.json()` or a subsequent field
access raises an exception described by `e`). -/
structure HttpResponse where
  statusCode : Nat
  body : Except String VBody
deriving Repr

/-- The query-string parameters built by `get_parms` in `src/geocoding.py`. -/
structure Params where
  service : String
  request : String
  version : String
  crs : String
  address : String
  refine : String
  simple : String
  format : String
  type : String
  key : String
deriving DecidableEq, Repr

/-- Embedding of the inner helper `get_parms` of `src/geocoding.py`, a
closure over `api_key`; this variant sets the crs field to epsg:4326. -/
def get_parms (api_key query type_hint : String) : Params :=
  { service := "address"
    request := "getcoord"
    version := "2.0"
    crs := "epsg:4326"
    address := query
    refine := "true"
    simple := "false"
    format := "json"
    type := type_hint
    key := api_key }

/-- Embedding of `get_parms` of the checkpoint variant, which sets the crs
field to epsg:4019. -/
def get_parms_ckpt (api_key query type_hint : String) : Params :=
  { service := "address"
    request := "getcoord"
    version := "2.0"
    crs := "epsg:4019"
    address := query
    refine := "true"
    simple := "false"
    format := "json"
    type := type_hint
    key := api_key }

/-- A remote-service behaviour: what each issued request produces —
either a raised exception (`Except.error`, e.g. connection failure or
timeout) or an HTTP response. -/
abbrev Net : Type := Params → Except String HttpResponse

/-- The dictionary returned by `geocoding_latlong`: either a success record
with keys lat, lng, found = True and level, or a failure record with keys
found = False and error. -/
inductive GeoResult where
  | ok (lat lng : Rat) (level : String)
  | err (error : String)
deriving DecidableEq, Repr

/-- Description carried by the KeyError raised when the code reads the point
out of a body that has no result field. -/
def pointKeyError : String := "KeyError: result"

/-- Embedding of `geocoding_latlong` from `src/geocoding.py`, instrumented with the list of requests it issues.  Control flow mirrors the
source: a non-200 tier-1 transport code returns an HTTP error; a tier-1
status other than `OK` (any of them) falls through to the ROAD retry; the
tier-2 transport code is never inspected; any raised exception is caught and
converted to a system-error dictionary; if the ROAD status is also not `OK`
the generic no-result error is returned. -/
def geocoding_latlong (net : Net) (address api_key : String) :
    GeoResult × List Params :=
  let p1 := get_parms api_key address "PARCEL"
  match net p1 with
  | .error e => (.err ("시스템 에러: " ++ e), [p1])
  | .ok resp1 =>
    if resp1.statusCode ≠ 200 then
      (.err ("HTTP 에러: " ++ toString resp1.statusCode), [p1])
    else
      match resp1.body with
      | .error e => (.err ("시스템 에러: " ++ e), [p1])
      | .ok json1 =>
        if json1.status = "OK" then
          match json1.point with
          | none => (.err ("시스템 에러: " ++ pointKeyError), [p1])
          | some pt => (.ok pt.y pt.x "exact", [p1])
        else
          let p2 := get_parms api_key address "ROAD"
          match net p2 with
          | .error e => (.err ("시스템 에러: " ++ e), [p1, p2])
          | .ok resp2 =>
            match resp2.body with
            | .error e => (.err ("시스템 에러: " ++ e), [p1, p2])
            | .ok json2 =>
              if json2.status = "OK" then
                match json2.point with
                | none => (.err ("시스템 에러: " ++ pointKeyError), [p1, p2])
                | some pt => (.ok pt.y pt.x "exact", [p1, p2])
              else
                (.err "결과 없음 (V-World 응답 확인 필요)", [p1, p2])

/-- Embedding of `geocoding_latlong` of the checkpoint variant, the file
`src/.ipynb_checkpoints/geocoding-checkpoint.py`: same shape, but a tier-1
status that is neither `OK` nor `NOT_FOUND` fails fast with the classified
API error built from the status and the optional `text` message, and the
same classification is applied after tier 2. -/
def geocoding_latlong_ckpt (net : Net) (address api_key : String) :
    GeoResult × List Params :=
  let p1 := get_parms_ckpt api_key address "PARCEL"
  match net p1 with
  | .error e => (.err ("시스템 에러: " ++ e), [p1])
  | .ok resp1 =>
    if resp1.statusCode ≠ 200 then
      (.err ("HTTP 접속 오류 (" ++ toString resp1.statusCode ++ ")"), [p1])
    else
      match resp1.body with
      | .error e => (.err ("시스템 에러: " ++ e), [p1])
      | .ok json1 =>
        if json1.status = "OK" then
          match json1.point with
          | none => (.err ("시스템 에러: " ++ pointKeyError), [p1])
          | some pt => (.ok pt.y pt.x "exact", [p1])
        else if json1.status = "NOT_FOUND" then
          let p2 := get_parms_ckpt api_key address "ROAD"
          match net p2 with
          | .error e => (.err ("시스템 에러: " ++ e), [p1, p2])
          | .ok resp2 =>
            match resp2.body with
            | .error e => (.err ("시스템 에러: " ++ e), [p1, p2])
            | .ok json2 =>
              if json2.status = "OK" then
                match json2.point with
                | none => (.err ("시스템 에러: " ++ pointKeyError), [p1, p2])
                | some pt => (.ok pt.y pt.x "exact", [p1, p2])
              else if json2.status ≠ "NOT_FOUND" then
                (.err ("API 에러: " ++ json2.status ++ " (" ++
                  json2.text.getD "" ++ ")"), [p1, p2])
              else
                (.err "주소 불명 (결과 없음)", [p1, p2])
        else
          (.err ("API 에러: " ++ json1.status ++ " (" ++
            json1.text.getD "" ++ ")"), [p1])

/-- A Python value held in a table cell or a result dictionary.  The
constructor `na` stands for a missing value, the values None and NaN that
`pd.isna` recognises. -/
inductive PyVal where
  | na
  | bool (b : Bool)
  | str (s : String)
  | num (q : Rat)
deriving DecidableEq, Repr

/-- A row of the table: the ordered mapping of column name to value that
`row.to_dict()` produces; also the shape of the merged result dictionary. -/
abbrev Dict : Type := List (String × PyVal)

/-- `pd.isna(v)`: true exactly on the missing value. -/
def isna : PyVal → Bool
  | .na => true
  | _ => false

/-- `str(v)` on a cell value. -/
def pyStr : PyVal → String
  | .na => "nan"
  | .bool b => if b then "True" else "False"
  | .str s => s
  | .num q => toString q

/-- Lookup of a key in a Python dictionary, first entry wins
(keys are unique in a real dict; this also handles any list). -/
def getKey (d : Dict) (k : String) : Option PyVal :=
  match d with
  | [] => none
  | (k1, v) :: rest => if k1 = k then some v else getKey rest k

/-- Whether a dictionary has an entry for a key. -/
def hasKey (d : Dict) (k : String) : Bool :=
  (getKey d k).isSome

/-- Dictionary assignment `d[k] = v`: overwrite the existing entry in place,
or append a new entry at the end. -/
def setKey (d : Dict) (k : String) (v : PyVal) : Dict :=
  match d with
  | [] => [(k, v)]
  | (k1, v1) :: rest =>
    if k1 = k then (k1, v) :: rest else (k1, v1) :: setKey rest k v

/-- Python `d.update(u)`: keys of `d` keep their position with values
overwritten from `u` where present; keys of `u` not in `d` are appended in
order. -/
def dictUpdate (d u : Dict) : Dict :=
  d.map (fun kv =>
    match getKey u kv.1 with
    | some v => (kv.1, v)
    | none => kv)
  ++ u.filter (fun kv => ! hasKey d kv.1)

/-- The key-value pairs the lookup result contributes to the merged row
dictionary (the dictionary literals returned by `geocoding_latlong` and the
blank-address literal in `process_row`). -/
def geoFields : GeoResult → Dict
  | .ok lat lng level =>
    [("lat", .num lat), ("lng", .num lng), ("found", .bool true),
     ("level", .str level)]
  | .err e => [("found", .bool false), ("error", .str e)]

/-- Embedding of `process_row(row, addr_col, api_key)` from
`src/geocoding.py`: look up the address cell (a missing column raises a
KeyError out of the worker, modelled as `none`); a missing or blank value
short-circuits to the blank-value error without touching the network;
otherwise `geocoding_latlong` runs on the stringified cell.  The merged
dictionary is returned together with the list of requests issued. -/
def process_row (net : Net) (row : Dict) (addr_col api_key : String) :
    Option (Dict × List Params) :=
  match getKey row addr_col with
  | none => none
  | some addr =>
    let res :=
      if isna addr || (pyStr addr).trim = "" then
        (GeoResult.err "빈 값", ([] : List Params))
      else
        geocoding_latlong net (pyStr addr) api_key
    some (dictUpdate row (geoFields res.1), res.2)

/-- The pyproj library, modelled as a pure environment: for a pair of CRS
names, the coordinate transform of the constructed Transformer. -/
abbrev TransformEnv : Type := String → String → Rat → Rat → Rat × Rat

/-- Embedding of `convert_tm(lat, lng)` from `src/geocoding.py`: build the
transformer for the fixed pair EPSG:4326 → EPSG:5186, apply it — it returns
the pair (TMY, TMX) — and return (TMX, TMY). -/
def convert_tm (env : TransformEnv) (lat lng : Rat) : Rat × Rat :=
  let transformer := env "EPSG:4326" "EPSG:5186"
  let res := transformer lat lng
  (res.2, res.1)

/-- Python truthiness of `d.get(k)` (None when the key is absent). -/
def truthyGet (d : Dict) (k : String) : Bool :=
  match getKey d k with
  | none => false
  | some .na => false
  | some (.bool b) => b
  | some (.str s) => s ≠ ""
  | some (.num q) => q ≠ 0

/-- The per-completion body of the batch loop in `src/geocoding.py`: if the
merged row is truthy on found, read lat and lng (a KeyError would abort the
batch, modelled as `Except.error`), run `convert_tm` and assign the TMX and
TMY keys. -/
def finishRow (env : TransformEnv) (rd : Dict) : Except String Dict :=
  if truthyGet rd "found" then
    match getKey rd "lat", getKey rd "lng" with
    | some (.num lat), some (.num lng) =>
      let tm := convert_tm env lat lng
      .ok (setKey (setKey rd "TMX" (.num tm.1)) "TMY" (.num tm.2))
    | _, _ => .error "KeyError: lat or lng"
  else
    .ok rd

/-- One full row task as the batch loop observes it: the worker runs
`process_row` (a raised KeyError propagates through `future.result()`), then
the loop body merges the TM coordinates. -/
def rowResult (net : Net) (env : TransformEnv) (row : Dict)
    (addr_col api_key : String) : Except String Dict :=
  match process_row net row addr_col api_key with
  | none => .error "KeyError: addr_col"
  | some rd => finishRow env rd.1

/-- Embedding of the ThreadPoolExecutor batch loop of `src/geocoding.py`:
one `process_row` task per row; results are appended in completion order,
modelled by the list `order` of row indices in the order their futures
complete.  Each row may see its own service behaviour (`nets i`), which
models an arbitrary assignment of remote responses to rows. -/
def run_batch (n : Nat) (nets : Fin n → Net) (env : TransformEnv)
    (rows : Fin n → Dict) (addr_col api_key : String) :
    List (Fin n) → Except String (List Dict)
  | [] => .ok []
  | i :: rest =>
    match rowResult (nets i) env (rows i) addr_col api_key with
    | .error e => .error e
    | .ok d =>
      match run_batch n nets env rows addr_col api_key rest with
      | .error e => .error e
      | .ok l => .ok (d :: l)

/-- A behaviour equal to `net` except on the single request `p`, which
produces `r`.  Used to state that a response field is never inspected. -/
def overrideNet (net : Net) (p : Params) (r : Except String HttpResponse) :
    Net :=
  fun q => if q = p then r else net q

/-- The column names the pipeline itself writes into the merged row. -/
def specialKeys : List String :=
  ["found", "level", "error", "lat", "lng", "TMX", "TMY"]

/-- Concrete behaviour: every request raises a connection error. -/
def netBoom : Net := fun _ => .error "boom"

/-- Concrete behaviour: the PARCEL query answers 200 / OK with the point
x = 127, y = 37.5; the ROAD query answers 200 / NOT_FOUND. -/
def netParcelOk : Net := fun p =>
  if p.type = "PARCEL" then
    .ok ⟨200, .ok ⟨"OK", some ⟨127, 37.5⟩, none⟩⟩
  else
    .ok ⟨200, .ok ⟨"NOT_FOUND", none, none⟩⟩

/-- Concrete behaviour: the PARCEL query answers 200 / NOT_FOUND; the ROAD
query answers 200 / OK with the point x = 127.1, y = 37.6. -/
def netRoadOk : Net := fun p =>
  if p.type = "PARCEL" then
    .ok ⟨200, .ok ⟨"NOT_FOUND", none, none⟩⟩
  else
    .ok ⟨200, .ok ⟨"OK", some ⟨127.1, 37.6⟩, none⟩⟩

/-- Concrete behaviour: the PARCEL query answers 200 with the credential
error status INVALID_KEY; the ROAD query answers 200 / NOT_FOUND. -/
def netInvalidKey : Net := fun p =>
  if p.type = "PARCEL" then
    .ok ⟨200, .ok ⟨"INVALID_KEY", none, some "인증키 오류"⟩⟩
  else
    .ok ⟨200, .ok ⟨"NOT_FOUND", none, none⟩⟩

/-- Concrete transform environment standing in for the pyproj library. -/
def envW : TransformEnv := fun _ _ lat lng => (lat + lng, lat - lng)

/-- Concrete two-row table for the batch witnesses. -/
def rowsW : Fin 2 → Dict := fun i =>
  if i = 0 then [("addr", .str "서울시 중구"), ("id", .num 1)]
  else [("addr", .str ""), ("id", .num 2)]

theorem getKey_append (d1 d2 : Dict) (k : String) :
    getKey (d1 ++ d2) k =
      match getKey d1 k with
      | some v => some v
      | none => getKey d2 k := by
  induction d1 with
  | nil => simp [getKey]
  | cons kv rest ih =>
    obtain ⟨k1, v1⟩ := kv
    by_cases h : k1 = k <;> simp [getKey, h, ih]

theorem getKey_updMap (d u : Dict) (k : String) :
    getKey (d.map (fun kv =>
      match getKey u kv.1 with
      | some v => (kv.1, v)
      | none => kv)) k =
      match getKey d k with
      | some v0 => some ((getKey u k).getD v0)
      | none => none := by
  induction d with
  | nil => simp [getKey]
  | cons kv rest ih =>
    obtain ⟨k1, v1⟩ := kv
    by_cases h : k1 = k
    · subst h
      cases hu : getKey u k1 <;> simp [getKey, hu]
    · cases hu : getKey u k1 <;> simp [getKey, h, hu, ih]

theorem getKey_filterNot (d u : Dict) (k : String) :
    getKey (u.filter (fun kv => ! hasKey d kv.1)) k =
      if hasKey d k then none else getKey u k := by
  induction u with
  | nil => simp [getKey]
  | cons kv rest ih =>
    obtain ⟨k1, v1⟩ := kv
    by_cases h : k1 = k
    · subst h
      by_cases hd : hasKey d k1 <;> simp [List.filter_cons, getKey, hd, ih]
    · by_cases hd : hasKey d k1 <;> simp [List.filter_cons, getKey, h, hd, ih]

theorem getKey_dictUpdate (d u : Dict) (k : String) :
    getKey (dictUpdate d u) k =
      match getKey d k with
      | some v0 => some ((getKey u k).getD v0)
      | none => getKey u k := by
  rw [dictUpdate, getKey_append, getKey_updMap, getKey_filterNot]
  cases hd : getKey d k
  · simp [hasKey, hd]
  · simp [hasKey, hd]

theorem getKey_dictUpdate_of_upd (d u : Dict) (k : String) (v : PyVal)
    (h : getKey u k = some v) : getKey (dictUpdate d u) k = some v := by
  rw [getKey_dictUpdate, h]
  cases getKey d k <;> simp

theorem getKey_dictUpdate_of_not_upd (d u : Dict) (k : String)
    (h : getKey u k = none) : getKey (dictUpdate d u) k = getKey d k := by
  rw [getKey_dictUpdate, h]
  cases getKey d k <;> simp

theorem getKey_setKey_same (d : Dict) (k : String) (v : PyVal) :
    getKey (setKey d k v) k = some v := by
  induction d with
  | nil => simp [setKey, getKey]
  | cons kv rest ih =>
    obtain ⟨k1, v1⟩ := kv
    by_cases h : k1 = k <;> simp [setKey, getKey, h, ih]

theorem getKey_setKey_other (d : Dict) (k k1 : String) (v : PyVal)
    (h : k1 ≠ k) : getKey (setKey d k v) k1 = getKey d k1 := by
  induction d with
  | nil => simp [setKey, getKey, Ne.symm h]
  | cons kv rest ih =>
    obtain ⟨k2, v2⟩ := kv
    by_cases h2 : k2 = k
    · subst h2
      simp [setKey, getKey, Ne.symm h]
    · simp [setKey, getKey, h2, ih]

/-- Claim C3: for every address, if the tier-1 PARCEL query returns HTTP 200
with service status OK and point x = 127, y = 37.5, then geocoding_latlong
returns the resolved dictionary with lat = 37.5 (taken from y), lng = 127
(taken from x) and level exact, after exactly one network call (the PARCEL
request alone). -/
theorem tier1_ok_resolves (net : Net) (address api_key : String)
    (t : Option String)
    (h : net (get_parms api_key address "PARCEL") =
      .ok ⟨200, .ok ⟨"OK", some ⟨127, 37.5⟩, t⟩⟩) :
    geocoding_latlong net address api_key =
      (.ok 37.5 127 "exact", [get_parms api_key address "PARCEL"]) := by
  simp [geocoding_latlong, h]

theorem tier1_ok_resolves_witness :
    geocoding_latlong netParcelOk "서울시 중구 세종대로 110" "KEY" =
      (.ok 37.5 127 "exact",
       [get_parms "KEY" "서울시 중구 세종대로 110" "PARCEL"]) :=
  tier1_ok_resolves netParcelOk "서울시 중구 세종대로 110" "KEY" none
    (by simp [netParcelOk, get_parms])

/-- Claim C4: for every address, if the tier-1 PARCEL query returns HTTP 200
with status NOT_FOUND and the tier-2 ROAD query returns status OK with point
x = 127.1, y = 37.6, then geocoding_latlong returns the resolved dictionary
with lat 37.6 and lng 127.1 after exactly two network calls. -/
theorem tier2_ok_resolves (net : Net) (address api_key : String)
    (pt1 : Option VPoint) (t1 t2 : Option String)
    (h1 : net (get_parms api_key address "PARCEL") =
      .ok ⟨200, .ok ⟨"NOT_FOUND", pt1, t1⟩⟩)
    (h2 : net (get_parms api_key address "ROAD") =
      .ok ⟨200, .ok ⟨"OK", some ⟨127.1, 37.6⟩, t2⟩⟩) :
    geocoding_latlong net address api_key =
      (.ok 37.6 127.1 "exact",
       [get_parms api_key address "PARCEL",
        get_parms api_key address "ROAD"]) := by
  simp [geocoding_latlong, h1, h2]

theorem tier2_ok_resolves_witness :
    geocoding_latlong netRoadOk "세종대로 110" "KEY" =
      (.ok 37.6 127.1 "exact",
       [get_parms "KEY" "세종대로 110" "PARCEL",
        get_parms "KEY" "세종대로 110" "ROAD"]) :=
  tier2_ok_resolves netRoadOk "세종대로 110" "KEY" none none none
    (by simp [netRoadOk, get_parms]) (by simp [netRoadOk, get_parms])

/-- Claim C2: for every row whose address cell is missing or a
blank/whitespace-only string, process_row produces the merged row with
found = False and the blank-value error string (the literal of the source
for: no value supplied), with an empty request trace — zero network calls,
geocoding_latlong never invoked. -/
theorem blank_address_no_call (net : Net) (row : Dict)
    (addr_col api_key : String) (v : PyVal)
    (hv : getKey row addr_col = some v)
    (hblank : isna v || (pyStr v).trim = "") :
    ∃ d, process_row net row addr_col api_key = some (d, []) ∧
      getKey d "found" = some (.bool false) ∧
      getKey d "error" = some (.str "빈 값") := by
  refine ⟨dictUpdate row (geoFields (.err "빈 값")), ?_, ?_, ?_⟩
  · simp [process_row, hv, hblank]
  · exact getKey_dictUpdate_of_upd _ _ _ _ (by simp [geoFields, getKey])
  · exact getKey_dictUpdate_of_upd _ _ _ _ (by simp [geoFields, getKey])

theorem blank_address_no_call_witness :
    ∃ d, process_row netBoom [("addr", PyVal.na)] "addr" "KEY" =
        some (d, []) ∧
      getKey d "found" = some (.bool false) ∧
      getKey d "error" = some (.str "빈 값") :=
  blank_address_no_call netBoom [("addr", PyVal.na)] "addr" "KEY" PyVal.na
    (by simp [getKey]) (by decide)

/-- Claim C9: convert_tm is deterministic — two invocations on identical
inputs agree — and its result depends only on the input pair and the
transform the library yields for the fixed deployment CRS pair
EPSG:4326 → EPSG:5186. -/
theorem convert_tm_deterministic (env env' : TransformEnv) (lat lng : Rat)
    (h : env "EPSG:4326" "EPSG:5186" = env' "EPSG:4326" "EPSG:5186") :
    convert_tm env lat lng = convert_tm env lat lng ∧
    convert_tm env lat lng = convert_tm env' lat lng := by
  refine ⟨rfl, ?_⟩
  simp [convert_tm, h]

theorem convert_tm_deterministic_witness :
    convert_tm envW 37.5 127 = convert_tm envW 37.5 127 ∧
    convert_tm envW 37.5 127 = convert_tm envW 37.5 127 :=
  convert_tm_deterministic envW envW 37.5 127 rfl

/-- Claim C1 counterexample: under a behaviour whose tier-1 answer is HTTP
200 with the credential-error status INVALID_KEY, geocoding_latlong of
src/geocoding.py does issue the tier-2 ROAD request — the request trace has
two entries, not one — and the outcome is the generic no-result error, not
a classified service error. -/
theorem credential_error_fails_fast_counterexample :
    geocoding_latlong netInvalidKey "서울" "KEY" =
      (.err "결과 없음 (V-World 응답 확인 필요)",
       [get_parms "KEY" "서울" "PARCEL", get_parms "KEY" "서울" "ROAD"]) ∧
    (geocoding_latlong netInvalidKey "서울" "KEY").2.length ≠ 1 := by
  constructor
  · simp [geocoding_latlong, netInvalidKey, get_parms]
  · simp [geocoding_latlong, netInvalidKey, get_parms]

/-- Claim C1 (amended): when tier 1 returns HTTP 200 with a status that is
neither OK nor NOT_FOUND (e.g. a credential error), geocoding_latlong of
src/geocoding.py does not fail fast: it always issues the tier-2 ROAD
request, so its trace is exactly the PARCEL request followed by the ROAD
request; the claimed fail-fast — an Unresolved outcome carrying the
classified service error after exactly one call — is the behaviour of the
checkpoint variant geocoding_latlong_ckpt alone. -/
theorem tier1_service_error_falls_through (net : Net)
    (address api_key s : String) (pt : Option VPoint) (t : Option String)
    (hs : s ≠ "OK") (hnf : s ≠ "NOT_FOUND")
    (h1 : net (get_parms api_key address "PARCEL") =
      .ok ⟨200, .ok ⟨s, pt, t⟩⟩)
    (h1c : net (get_parms_ckpt api_key address "PARCEL") =
      .ok ⟨200, .ok ⟨s, pt, t⟩⟩) :
    (geocoding_latlong net address api_key).2 =
      [get_parms api_key address "PARCEL",
       get_parms api_key address "ROAD"] ∧
    geocoding_latlong_ckpt net address api_key =
      (.err ("API 에러: " ++ s ++ " (" ++ t.getD "" ++ ")"),
       [get_parms_ckpt api_key address "PARCEL"]) := by
  constructor
  · rcases h2 : net (get_parms api_key address "ROAD") with e2 | resp2
    · simp [geocoding_latlong, h1, hs, h2]
    · rcases hb : resp2.body with e3 | j2
      · simp [geocoding_latlong, h1, hs, h2, hb]
      · by_cases hoj : j2.status = "OK"
        · rcases hp : j2.point with _ | pt2 <;>
            simp [geocoding_latlong, h1, hs, h2, hb, hoj, hp]
        · simp [geocoding_latlong, h1, hs, h2, hb, hoj]
  · simp [geocoding_latlong_ckpt, h1c, hs, hnf]

theorem tier1_service_error_falls_through_witness :
    (geocoding_latlong netInvalidKey "서울" "KEY").2 =
      [get_parms "KEY" "서울" "PARCEL", get_parms "KEY" "서울" "ROAD"] ∧
    geocoding_latlong_ckpt netInvalidKey "서울" "KEY" =
      (.err ("API 에러: " ++ "INVALID_KEY" ++ " (" ++
        (some "인증키 오류").getD "" ++ ")"),
       [get_parms_ckpt "KEY" "서울" "PARCEL"]) :=
  tier1_service_error_falls_through netInvalidKey "서울" "KEY" "INVALID_KEY"
    none (some "인증키 오류") (by decide) (by decide)
    (by simp [netInvalidKey, get_parms])
    (by simp [netInvalidKey, get_parms_ckpt])

/-- Claim C10: the HTTP status code of the tier-2 ROAD response is never
inspected — overriding only that status code, keeping the body, never
changes the result of geocoding_latlong; the outcome of the ROAD leg is
determined solely by the parsed body (or becomes a system error when the
body parsing raises, which is part of the body value here). -/
theorem tier2_status_code_ignored (net : Net) (address api_key : String)
    (c c' : Nat) (b : Except String VBody) :
    geocoding_latlong
      (overrideNet net (get_parms api_key address "ROAD") (.ok ⟨c, b⟩))
      address api_key =
    geocoding_latlong
      (overrideNet net (get_parms api_key address "ROAD") (.ok ⟨c', b⟩))
      address api_key := by
  have hne : get_parms api_key address "PARCEL" ≠
      get_parms api_key address "ROAD" := by
    simp [get_parms]
  rcases hnp : net (get_parms api_key address "PARCEL") with e1 | resp1
  · simp [geocoding_latlong, overrideNet, hne, hnp]
  · by_cases hc200 : resp1.statusCode = 200
    · rcases hb1 : resp1.body with eb | j1
      · simp [geocoding_latlong, overrideNet, hne, hnp, hc200, hb1]
      · by_cases hs1 : j1.status = "OK"
        · rcases hp1 : j1.point with _ | pt1 <;>
            simp [geocoding_latlong, overrideNet, hne, hnp, hc200, hb1,
              hs1, hp1]
        · rcases hb : b with eb | j2
          · simp [geocoding_latlong, overrideNet, hne, hnp, hc200, hb1, hs1]
          · by_cases hs2 : j2.status = "OK"
            · rcases hp2 : j2.point with _ | pt2 <;>
                simp [geocoding_latlong, overrideNet, hne, hnp, hc200, hb1,
                  hs1, hs2, hp2]
            · simp [geocoding_latlong, overrideNet, hne, hnp, hc200, hb1,
                hs1, hs2]
    · simp [geocoding_latlong, overrideNet, hne, hnp, hc200]

/-- Claim C5: any raised exception — during the network request or during
body parsing, at either tier, including a missing point field under an OK
status — is caught by geocoding_latlong and converted into the system-error
outcome carrying the description of the exception; the function always
returns a dictionary. -/
theorem exceptions_become_system_errors (net : Net)
    (address api_key e : String)
    (h :
      net (get_parms api_key address "PARCEL") = .error e ∨
      net (get_parms api_key address "PARCEL") = .ok ⟨200, .error e⟩ ∨
      (∃ j, net (get_parms api_key address "PARCEL") = .ok ⟨200, .ok j⟩ ∧
        j.status = "OK" ∧ j.point = none ∧ e = pointKeyError) ∨
      (∃ j, net (get_parms api_key address "PARCEL") = .ok ⟨200, .ok j⟩ ∧
        j.status ≠ "OK" ∧
        net (get_parms api_key address "ROAD") = .error e) ∨
      (∃ j c2, net (get_parms api_key address "PARCEL") = .ok ⟨200, .ok j⟩ ∧
        j.status ≠ "OK" ∧
        net (get_parms api_key address "ROAD") = .ok ⟨c2, .error e⟩) ∨
      (∃ j c2 j2,
        net (get_parms api_key address "PARCEL") = .ok ⟨200, .ok j⟩ ∧
        j.status ≠ "OK" ∧
        net (get_parms api_key address "ROAD") = .ok ⟨c2, .ok j2⟩ ∧
        j2.status = "OK" ∧ j2.point = none ∧ e = pointKeyError)) :
    (geocoding_latlong net address api_key).1 =
      .err ("시스템 에러: " ++ e) := by
  rcases h with h | h | ⟨j, h, hs, hp, he⟩ | ⟨j, h, hs, h2⟩ |
    ⟨j, c2, h, hs, h2⟩ | ⟨j, c2, j2, h, hs, h2, hs2, hp2, he⟩
  · simp [geocoding_latlong, h]
  · simp [geocoding_latlong, h]
  · subst he
    simp [geocoding_latlong, h, hs, hp]
  · simp [geocoding_latlong, h, hs, h2]
  · simp [geocoding_latlong, h, hs, h2]
  · subst he
    simp [geocoding_latlong, h, hs, h2, hs2, hp2]

theorem exceptions_become_system_errors_witness :
    (geocoding_latlong netBoom "서울" "KEY").1 =
      .err ("시스템 에러: " ++ "boom") :=
  exceptions_become_system_errors netBoom "서울" "KEY" "boom" (Or.inl rfl)

/-- Claim C8: one invocation of geocoding_latlong issues at most two
outbound requests, and exactly one when the tier-1 query either parses with
service status OK or returns a non-200 transport code. -/
theorem at_most_two_calls (net : Net) (address api_key : String) :
    (geocoding_latlong net address api_key).2.length ≤ 2 ∧
    (((∃ j, net (get_parms api_key address "PARCEL") = .ok ⟨200, .ok j⟩ ∧
        j.status = "OK") ∨
      (∃ r, net (get_parms api_key address "PARCEL") = .ok r ∧
        r.statusCode ≠ 200)) →
      (geocoding_latlong net address api_key).2.length = 1) := by
  constructor
  · rcases h1 : net (get_parms api_key address "PARCEL") with e1 | r1
    · simp [geocoding_latlong, h1]
    · by_cases hc : r1.statusCode = 200
      · rcases hb : r1.body with eb | j1
        · simp [geocoding_latlong, h1, hc, hb]
        · by_cases hs : j1.status = "OK"
          · rcases hp : j1.point with _ | pt <;>
              simp [geocoding_latlong, h1, hc, hb, hs, hp]
          · rcases h2 : net (get_parms api_key address "ROAD") with e2 | r2
            · simp [geocoding_latlong, h1, hc, hb, hs, h2]
            · rcases hb2 : r2.body with eb2 | j2
              · simp [geocoding_latlong, h1, hc, hb, hs, h2, hb2]
              · by_cases hs2 : j2.status = "OK"
                · rcases hp2 : j2.point with _ | pt2 <;>
                    simp [geocoding_latlong, h1, hc, hb, hs, h2, hb2,
                      hs2, hp2]
                · simp [geocoding_latlong, h1, hc, hb, hs, h2, hb2, hs2]
      · simp [geocoding_latlong, h1, hc]
  · rintro (⟨j, h1, hs⟩ | ⟨r, h1, hc⟩)
    · rcases hp : j.point with _ | pt <;>
        simp [geocoding_latlong, h1, hs, hp]
    · simp [geocoding_latlong, h1, hc]

theorem at_most_two_calls_witness :
    (geocoding_latlong netParcelOk "서울" "KEY").2.length ≤ 2 ∧
    (geocoding_latlong netParcelOk "서울" "KEY").2.length = 1 :=
  ⟨(at_most_two_calls netParcelOk "서울" "KEY").1,
   (at_most_two_calls netParcelOk "서울" "KEY").2
     (Or.inl ⟨⟨"OK", some ⟨127, 37.5⟩, none⟩,
       by simp [netParcelOk, get_parms], rfl⟩)⟩

theorem finishRow_geo_ok (env : TransformEnv) (row : Dict) (r : GeoResult) :
    ∃ d, finishRow env (dictUpdate row (geoFields r)) = .ok d := by
  cases r with
  | ok lat lng lvl =>
    have hfound : getKey (dictUpdate row (geoFields (.ok lat lng lvl)))
        "found" = some (.bool true) :=
      getKey_dictUpdate_of_upd _ _ _ _ (by simp [geoFields, getKey])
    have hlat : getKey (dictUpdate row (geoFields (.ok lat lng lvl)))
        "lat" = some (.num lat) :=
      getKey_dictUpdate_of_upd _ _ _ _ (by simp [geoFields, getKey])
    have hlng : getKey (dictUpdate row (geoFields (.ok lat lng lvl)))
        "lng" = some (.num lng) :=
      getKey_dictUpdate_of_upd _ _ _ _ (by simp [geoFields, getKey])
    exact ⟨setKey (setKey (dictUpdate row (geoFields (.ok lat lng lvl)))
        "TMX" (.num (convert_tm env lat lng).1)) "TMY"
        (.num (convert_tm env lat lng).2),
      by simp [finishRow, truthyGet, hfound, hlat, hlng]⟩
  | err e =>
    have hfound : getKey (dictUpdate row (geoFields (.err e)))
        "found" = some (.bool false) :=
      getKey_dictUpdate_of_upd _ _ _ _ (by simp [geoFields, getKey])
    exact ⟨dictUpdate row (geoFields (.err e)),
      by simp [finishRow, truthyGet, hfound]⟩

theorem rowResult_ok (net : Net) (env : TransformEnv) (row : Dict)
    (addr_col api_key : String) (h : (getKey row addr_col).isSome) :
    ∃ d, rowResult net env row addr_col api_key = .ok d := by
  rcases ho : getKey row addr_col with _ | v
  · rw [ho] at h
    simp at h
  · by_cases hb : isna v || (pyStr v).trim = ""
    · obtain ⟨d, hd⟩ := finishRow_geo_ok env row (.err "빈 값")
      exact ⟨d, by simp [rowResult, process_row, ho, hb, hd]⟩
    · obtain ⟨d, hd⟩ := finishRow_geo_ok env row
        (geocoding_latlong net (pyStr v) api_key).1
      exact ⟨d, by simp [rowResult, process_row, ho, hb, hd]⟩

theorem run_batch_all_ok (n : Nat) (nets : Fin n → Net)
    (env : TransformEnv) (rows : Fin n → Dict) (addr_col api_key : String)
    (f : Fin n → Dict)
    (hf : ∀ i, rowResult (nets i) env (rows i) addr_col api_key = .ok (f i))
    (order : List (Fin n)) :
    run_batch n nets env rows addr_col api_key order = .ok (order.map f) := by
  induction order with
  | nil => simp [run_batch]
  | cons i rest ih => simp [run_batch, hf i, ih]

/-- Claim C6: for every input table of N rows, every assignment of remote
behaviour to rows, and every completion order (a permutation of the row
indices), the batch loop returns exactly N merged rows, and the result list
is a permutation of the per-index list of merges — each output row is the
merge of exactly one distinct origin row with that same row's own outcome,
none duplicated or lost. -/
theorem batch_preserves_rows (n : Nat) (nets : Fin n → Net)
    (env : TransformEnv) (rows : Fin n → Dict) (addr_col api_key : String)
    (order : List (Fin n))
    (horder : order.Perm (List.finRange n))
    (haddr : ∀ i, (getKey (rows i) addr_col).isSome) :
    ∃ f : Fin n → Dict,
      (∀ i, rowResult (nets i) env (rows i) addr_col api_key = .ok (f i)) ∧
      run_batch n nets env rows addr_col api_key order = .ok (order.map f) ∧
      (order.map f).length = n ∧
      (order.map f).Perm ((List.finRange n).map f) := by
  have hex : ∀ i, ∃ d,
      rowResult (nets i) env (rows i) addr_col api_key = .ok d :=
    fun i => rowResult_ok (nets i) env (rows i) addr_col api_key (haddr i)
  choose f hf using hex
  refine ⟨f, hf,
    run_batch_all_ok n nets env rows addr_col api_key f hf order, ?_,
    horder.map f⟩
  rw [List.length_map, horder.length_eq, List.length_finRange]

theorem batch_preserves_rows_witness :
    ∃ f : Fin 2 → Dict,
      (∀ i, rowResult ((fun _ => netParcelOk) i) envW (rowsW i)
        "addr" "KEY" = .ok (f i)) ∧
      run_batch 2 (fun _ => netParcelOk) envW rowsW "addr" "KEY" [1, 0] =
        .ok ([1, 0].map f) ∧
      ([(1 : Fin 2), 0].map f).length = 2 ∧
      ([(1 : Fin 2), 0].map f).Perm ((List.finRange 2).map f) :=
  batch_preserves_rows 2 (fun _ => netParcelOk) envW rowsW "addr" "KEY"
    [1, 0] (by decide) (by decide)

theorem setTM_invariant (b : Dict) (va vb : PyVal)
    (hfound : getKey b "found" = some (PyVal.bool true))
    (hlat : (getKey b "lat").isSome = true)
    (hlng : (getKey b "lng").isSome = true)
    (herr : getKey b "error" = none) :
    ((getKey (setKey (setKey b "TMX" va) "TMY" vb) "found" =
        some (PyVal.bool true)) ↔
      (hasKey (setKey (setKey b "TMX" va) "TMY" vb) "lat" = true ∧
       hasKey (setKey (setKey b "TMX" va) "TMY" vb) "lng" = true ∧
       hasKey (setKey (setKey b "TMX" va) "TMY" vb) "TMX" = true ∧
       hasKey (setKey (setKey b "TMX" va) "TMY" vb) "TMY" = true ∧
       hasKey (setKey (setKey b "TMX" va) "TMY" vb) "error" = false)) ∧
    ((getKey (setKey (setKey b "TMX" va) "TMY" vb) "found" =
        some (PyVal.bool false)) ↔
      (hasKey (setKey (setKey b "TMX" va) "TMY" vb) "error" = true ∧
       hasKey (setKey (setKey b "TMX" va) "TMY" vb) "lat" = false ∧
       hasKey (setKey (setKey b "TMX" va) "TMY" vb) "lng" = false ∧
       hasKey (setKey (setKey b "TMX" va) "TMY" vb) "TMX" = false ∧
       hasKey (setKey (setKey b "TMX" va) "TMY" vb) "TMY" = false)) := by
  have e1 : ∀ k1 : String, k1 ≠ "TMX" → k1 ≠ "TMY" →
      getKey (setKey (setKey b "TMX" va) "TMY" vb) k1 = getKey b k1 := by
    intro k1 h1 h2
    rw [getKey_setKey_other _ _ _ _ h2, getKey_setKey_other _ _ _ _ h1]
  have etmx : getKey (setKey (setKey b "TMX" va) "TMY" vb) "TMX" =
      some va := by
    rw [getKey_setKey_other _ _ _ _ (by decide), getKey_setKey_same]
  have etmy : getKey (setKey (setKey b "TMX" va) "TMY" vb) "TMY" =
      some vb := getKey_setKey_same _ _ _
  constructor
  · simp [hasKey, e1 "found" (by decide) (by decide), hfound,
      e1 "lat" (by decide) (by decide), e1 "lng" (by decide) (by decide),
      e1 "error" (by decide) (by decide), etmx, etmy, hlat, hlng, herr]
  · simp [hasKey, e1 "found" (by decide) (by decide), hfound,
      e1 "error" (by decide) (by decide), herr]

theorem merged_invariant_core (env : TransformEnv) (row : Dict)
    (r : GeoResult) (hdisj : ∀ k ∈ specialKeys, getKey row k = none) :
    ∃ d, finishRow env (dictUpdate row (geoFields r)) = .ok d ∧
      ((getKey d "found" = some (.bool true)) ↔
        (hasKey d "lat" = true ∧ hasKey d "lng" = true ∧
         hasKey d "TMX" = true ∧ hasKey d "TMY" = true ∧
         hasKey d "error" = false)) ∧
      ((getKey d "found" = some (.bool false)) ↔
        (hasKey d "error" = true ∧ hasKey d "lat" = false ∧
         hasKey d "lng" = false ∧ hasKey d "TMX" = false ∧
         hasKey d "TMY" = false)) := by
  cases r with
  | ok lat lng lvl =>
    have hfound : getKey (dictUpdate row (geoFields (.ok lat lng lvl)))
        "found" = some (.bool true) :=
      getKey_dictUpdate_of_upd _ _ _ _ (by simp [geoFields, getKey])
    have hlat : getKey (dictUpdate row (geoFields (.ok lat lng lvl)))
        "lat" = some (.num lat) :=
      getKey_dictUpdate_of_upd _ _ _ _ (by simp [geoFields, getKey])
    have hlng : getKey (dictUpdate row (geoFields (.ok lat lng lvl)))
        "lng" = some (.num lng) :=
      getKey_dictUpdate_of_upd _ _ _ _ (by simp [geoFields, getKey])
    have herr : getKey (dictUpdate row (geoFields (.ok lat lng lvl)))
        "error" = none := by
      rw [getKey_dictUpdate_of_not_upd _ _ _ (by simp [geoFields, getKey])]
      exact hdisj "error" (by simp [specialKeys])
    refine ⟨setKey (setKey (dictUpdate row (geoFields (.ok lat lng lvl)))
        "TMX" (.num (convert_tm env lat lng).1)) "TMY"
        (.num (convert_tm env lat lng).2), ?_, ?_⟩
    · simp [finishRow, truthyGet, hfound, hlat, hlng]
    · exact setTM_invariant _ _ _ hfound (by simp [hlat]) (by simp [hlng])
        herr
  | err e =>
    have hfound : getKey (dictUpdate row (geoFields (.err e)))
        "found" = some (.bool false) :=
      getKey_dictUpdate_of_upd _ _ _ _ (by simp [geoFields, getKey])
    have herr : getKey (dictUpdate row (geoFields (.err e)))
        "error" = some (.str e) :=
      getKey_dictUpdate_of_upd _ _ _ _ (by simp [geoFields, getKey])
    have habs : ∀ k, k ∈ specialKeys → getKey (geoFields (.err e)) k = none →
        getKey (dictUpdate row (geoFields (.err e))) k = none := by
      intro k hk hu
      rw [getKey_dictUpdate_of_not_upd _ _ _ hu]
      exact hdisj k hk
    have hlat := habs "lat" (by simp [specialKeys]) (by simp [geoFields, getKey])
    have hlng := habs "lng" (by simp [specialKeys]) (by simp [geoFields, getKey])
    have htmx := habs "TMX" (by simp [specialKeys]) (by simp [geoFields, getKey])
    have htmy := habs "TMY" (by simp [specialKeys]) (by simp [geoFields, getKey])
    refine ⟨dictUpdate row (geoFields (.err e)), ?_, ?_, ?_⟩
    · simp [finishRow, truthyGet, hfound]
    · simp [hasKey, hfound, herr, hlat, hlng, htmx, htmy]
    · simp [hasKey, hfound, herr, hlat, hlng, htmx, htmy]

/-- Claim C7: for every row whose original column names are disjoint from
the seven result keys and whose address column exists, the merged ResultRow
of one completed task satisfies the mutual-exclusivity invariant: found is
True iff lat, lng, TMX and TMY are all present and error is absent, and
found is False iff error is present and all four coordinate keys are
absent. -/
theorem merged_row_invariant (net : Net) (env : TransformEnv) (row : Dict)
    (addr_col api_key : String)
    (haddr : (getKey row addr_col).isSome)
    (hdisj : ∀ k ∈ specialKeys, getKey row k = none) :
    ∃ d, rowResult net env row addr_col api_key = .ok d ∧
      ((getKey d "found" = some (.bool true)) ↔
        (hasKey d "lat" = true ∧ hasKey d "lng" = true ∧
         hasKey d "TMX" = true ∧ hasKey d "TMY" = true ∧
         hasKey d "error" = false)) ∧
      ((getKey d "found" = some (.bool false)) ↔
        (hasKey d "error" = true ∧ hasKey d "lat" = false ∧
         hasKey d "lng" = false ∧ hasKey d "TMX" = false ∧
         hasKey d "TMY" = false)) := by
  rcases ho : getKey row addr_col with _ | v
  · rw [ho] at haddr
    simp at haddr
  · by_cases hb : isna v || (pyStr v).trim = ""
    · obtain ⟨d, hd, h1, h2⟩ := merged_invariant_core env row (.err "빈 값") hdisj
      exact ⟨d, by simp [rowResult, process_row, ho, hb, hd], h1, h2⟩
    · obtain ⟨d, hd, h1, h2⟩ := merged_invariant_core env row
        (geocoding_latlong net (pyStr v) api_key).1 hdisj
      exact ⟨d, by simp [rowResult, process_row, ho, hb, hd], h1, h2⟩

theorem merged_row_invariant_witness :
    ∃ d, rowResult netParcelOk envW
        [("addr", PyVal.str "세종대로 110"), ("id", PyVal.num 1)]
        "addr" "KEY" = .ok d ∧
      ((getKey d "found" = some (.bool true)) ↔
        (hasKey d "lat" = true ∧ hasKey d "lng" = true ∧
         hasKey d "TMX" = true ∧ hasKey d "TMY" = true ∧
         hasKey d "error" = false)) ∧
      ((getKey d "found" = some (.bool false)) ↔
        (hasKey d "error" = true ∧ hasKey d "lat" = false ∧
         hasKey d "lng" = false ∧ hasKey d "TMX" = false ∧
         hasKey d "TMY" = false)) :=
  merged_row_invariant netParcelOk envW
    [("addr", PyVal.str "세종대로 110"), ("id", PyVal.num 1)] "addr" "KEY"
    (by decide) (by decide)

end Geocoding
